import Mathlib

/-!
Verification development for the Dollar two-stage ETL pipeline (`app.py`).

The pipeline's core is embedded shallowly:
* JSON payloads become the inductive type `Json`.
* `process_dollar_data` (the Payload Extractor) becomes a pure function
  from `Json` to `Except PyErr (String × ℚ)`, mirroring the Python control
  flow statement by statement.  Python machine floats are modelled by exact
  rationals; host `datetime` range limits and float rounding beyond the
  representable range are not modelled.
* `insert_dollar_data` (the Idempotent Ingestor) becomes a pure state
  transformer on a list of stored rows, mirroring the
  SELECT-COUNT-then-INSERT sequence.
* `process_file` and `f` (the Lambda entry points) become total functions
  parameterised by oracles for the external collaborators (S3 download,
  JSON decode, DB connect, table creation); each oracle may fail, and the
  embedding routes every failure exactly where the Python `try`/`except`
  structure routes the corresponding exception.
-/

/-- Deserialized JSON value, as produced by Python `json.loads`.
Numbers are modelled by exact rationals. -/
inductive Json where
  | jnull : Json
  | jbool (b : Bool) : Json
  | jnum (q : ℚ) : Json
  | jstr (s : String) : Json
  | jarr (xs : List Json) : Json
  | jobj (kvs : List (String × Json)) : Json

/-- A raised Python exception: its class name and message. -/
structure PyErr where
  etype : String
  msg : String
deriving DecidableEq

/-- Value of a decimal digit character, `none` for a non-digit. -/
def digitVal (c : Char) : Option Nat :=
  if c.isDigit then some (c.toNat - 48) else none

/-- Reads a string of decimal digits, allowing the empty string (value 0). -/
def digitsValAux (cs : List Char) : Option Nat :=
  cs.foldlM (fun a c => (digitVal c).map (fun d => a * 10 + d)) 0

/-- Reads a non-empty string of decimal digits. -/
def digitsVal (cs : List Char) : Option Nat :=
  if cs.isEmpty then none else digitsValAux cs

/-- Python `int(s)` on a string: optional sign followed by digits.
(The surrounding-whitespace and underscore tolerance of CPython is not
modelled.) -/
def strToInt (s : String) : Option Int :=
  match s.data with
  | '-' :: rest => (digitsVal rest).map (fun n => -(n : Int))
  | '+' :: rest => (digitsVal rest).map (fun n => (n : Int))
  | cs => (digitsVal cs).map (fun n => (n : Int))

/-- Python `float(s)` on a string: optional sign, digits, optional decimal
point and fraction digits, at least one digit overall.  (Exponent, inf/nan
and whitespace forms are not modelled; values are exact rationals.) -/
def strToRat (s : String) : Option ℚ :=
  let core : List Char → Option ℚ := fun cs =>
    match cs.span (fun c => c ≠ '.') with
    | (ip, []) => (digitsVal ip).map (fun n => (n : ℚ))
    | (ip, _ :: fp) =>
      if ip.isEmpty && fp.isEmpty then none
      else
        match digitsValAux ip, digitsValAux fp with
        | some a, some b => some ((a : ℚ) + (b : ℚ) / ((10 : ℚ) ^ fp.length))
        | _, _ => none
  match s.data with
  | [] => none
  | '-' :: rest => (core rest).map (fun q => -q)
  | '+' :: rest => core rest
  | cs => core cs

/-- Python `int(x)` on a JSON-decoded value: identity on ints, truncation
toward zero on floats, digit parse on strings, 0/1 on bools; `none` models
the `ValueError`/`TypeError` that other types raise. -/
def pyInt : Json → Option Int
  | .jnum q => some (Int.tdiv q.num (q.den : Int))
  | .jstr s => strToInt s
  | .jbool b => some (if b then 1 else 0)
  | _ => none

/-- Python `float(x)` on a JSON-decoded value; `none` models the
`ValueError`/`TypeError` raised on non-numeric input. -/
def pyFloat : Json → Option ℚ
  | .jnum q => some q
  | .jstr s => strToRat s
  | .jbool b => some (if b then 1 else 0)
  | _ => none

/-- Python `repr` of a JSON-decoded value (float rendering approximated by
the rational literal; only used inside error messages). -/
def pyRepr : Json → String
  | .jnull => "None"
  | .jbool true => "True"
  | .jbool false => "False"
  | .jnum q => if q.den = 1 then toString q.num else toString q
  | .jstr s => "\x27" ++ s ++ "\x27"
  | .jarr xs => "[" ++ String.intercalate ", " (xs.attach.map (fun x => pyRepr x.1)) ++ "]"
  | .jobj kvs =>
      "\x7b" ++
        String.intercalate ", "
          (kvs.attach.map (fun kv => "\x27" ++ kv.1.1 ++ "\x27: " ++ pyRepr kv.1.2)) ++
      "\x7d"
decreasing_by
  all_goals simp_wf
  · have := List.sizeOf_lt_of_mem x.2
    omega
  · have h1 := List.sizeOf_lt_of_mem kv.2
    have h2 : sizeOf kv.1.2 < sizeOf kv.1 := by
      obtain ⟨a, b⟩ := kv.1
      simp only [Prod.mk.sizeOf_spec]
      omega
    omega

/-- Python `str` of a JSON-decoded value (as interpolated by f-strings). -/
def pyStr : Json → String
  | .jstr s => s
  | j => pyRepr j

/-- Epoch days → proleptic Gregorian civil date, the classical era-based
algorithm (also what CPython's `datetime` renders); divisions round toward
zero exactly as in the reference algorithm, with the pre-shift making the
operands nonnegative in the era computation. -/
def civilFromDays (z0 : Int) : Int × Nat × Nat :=
  let z := z0 + 719468
  let era := Int.tdiv (if 0 ≤ z then z else z - 146096) 146097
  let doe := z - era * 146097
  let yoe := Int.tdiv (doe - Int.tdiv doe 1460 + Int.tdiv doe 36524 - Int.tdiv doe 146096) 365
  let y := yoe + era * 400
  let doy := doe - (365 * yoe + Int.tdiv yoe 4 - Int.tdiv yoe 100)
  let mp := Int.tdiv (5 * doy + 2) 153
  let d := doy - Int.tdiv (153 * mp + 2) 5 + 1
  let m := if mp < 10 then mp + 3 else mp - 9
  (if m ≤ 2 then y + 1 else y, m.toNat, d.toNat)

/-- Left-pads the decimal rendering of `n` with zeros to width 2. -/
def pad2 (n : Nat) : String :=
  if n < 10 then "0" ++ toString n else toString n

/-- Left-pads the decimal rendering of a year to width 4 (as `%Y` does for
the years this pipeline can meet). -/
def pad4 (y : Int) : String :=
  if y < 0 then "-" ++ toString (-y)
  else if y < 10 then "000" ++ toString y
  else if y < 100 then "00" ++ toString y
  else if y < 1000 then "0" ++ toString y
  else toString y

/-- `datetime.strftime('%Y-%m-%d %H:%M:%S')` on the local civil time of an
epoch-second instant; the host timezone offset (in seconds) is an explicit
parameter `tz`. -/
def fmtTimestamp (tz : Int) (sec : Int) : String :=
  let t := sec + tz
  let days := Int.fdiv t 86400
  let sod := (t - days * 86400).toNat
  let c := civilFromDays days
  pad4 c.1 ++ "-" ++ pad2 c.2.1 ++ "-" ++ pad2 c.2.2 ++ " " ++
    pad2 (sod / 3600) ++ ":" ++ pad2 (sod % 3600 / 60) ++ ":" ++ pad2 (sod % 60)

/-- Second-precision instant produced by
`datetime.fromtimestamp(int(timestamp_ms) / 1000)` once rendered at whole
seconds by `strftime`: the exact quotient is taken in ℚ and the rendering
truncates it to its floor. -/
def toEpochSec (ms : Int) : Int :=
  Rat.floor ((ms : ℚ) / 1000)

/-- True exactly for Python `isinstance(x, list)`. -/
def firstIsList : Json → Bool
  | .jarr _ => true
  | _ => false

/-- Python `len(x)`, `none` modelling the `TypeError` on unsized values. -/
def pyLen : Json → Option Nat
  | .jarr xs => some xs.length
  | .jstr s => some s.length
  | .jobj kvs => some kvs.length
  | _ => none

/-- Python `x[i]` for a small integer index: list indexing, string indexing
(yielding a one-character string), and `none` for the `KeyError` that
integer indexing of a JSON-decoded dict raises. -/
def pyIdx : Json → Nat → Option Json
  | .jarr xs, i => xs.get? i
  | .jstr s, i => (s.data.get? i).map (fun c => Json.jstr (String.mk [c]))
  | _, _ => none

/-- Lines 167-186 of `app.py`: length check, unpacking of
`latest_record[0]`/`latest_record[1]`, timestamp conversion and value
conversion, with each conversion failure re-raised as a `ValueError`
(the wrapped exception text is abbreviated). -/
def extractLatest (tz : Int) (latest : Json) : Except PyErr (String × ℚ) :=
  match pyLen latest with
  | none => .error ⟨"TypeError", "object has no len()"⟩
  | some n =>
    if n < 2 then
      .error ⟨"ValueError",
        "Registro inválido: " ++ pyRepr latest ++
          ". Se esperan al menos 2 elementos [timestamp, valor]"⟩
    else
      match pyIdx latest 0, pyIdx latest 1 with
      | some ts, some v =>
        match pyInt ts with
        | none => .error ⟨"ValueError", "Error convirtiendo timestamp " ++ pyStr ts⟩
        | some ms =>
          match pyFloat v with
          | none => .error ⟨"ValueError", "Error convirtiendo valor " ++ pyStr v⟩
          | some valor => .ok (fmtTimestamp tz (toEpochSec ms), valor)
      | _, _ => .error ⟨"KeyError", "0"⟩

/-- `process_dollar_data` (lines 147-186 of `app.py`): rejects non-list and
empty payloads, rejects a list whose first element is not a list, then
extracts from the last record.  Returns the formatted `fechahora` string
and the `valor` rational on success. -/
def process_dollar_data (tz : Int) (data : Json) : Except PyErr (String × ℚ) :=
  match data with
  | .jarr (first :: rest) =>
    if firstIsList first then
      extractLatest tz ((first :: rest).getLast (List.cons_ne_nil first rest))
    else
      .error ⟨"ValueError", "El archivo JSON no tiene el formato esperado (lista de listas)"⟩
  | _ => .error ⟨"ValueError", "El archivo JSON no contiene una lista de datos"⟩

/-- A persisted row of the `dolar` table (surrogate id and server-assigned
`created_at` omitted: the application never reads them). -/
structure Row where
  fechahora : String
  valor : ℚ
deriving DecidableEq

/-- `SELECT COUNT(*) FROM dolar WHERE fechahora = %s`. -/
def countKey (db : List Row) (k : String) : Nat :=
  (db.filter (fun r => r.fechahora == k)).length

/-- `insert_dollar_data` (lines 188-216 of `app.py`): existence check, then
insert-if-absent; returns the action string and the new table state. -/
def insert_dollar_data (db : List Row) (fechahora : String) (valor : ℚ) :
    String × List Row :=
  if countKey db fechahora > 0 then ("skipped", db)
  else ("inserted", db ++ [⟨fechahora, valor⟩])

/-- The four `RDS_*` environment variables, each possibly unset. -/
structure Env where
  rds_host : Option String
  rds_user : Option String
  rds_password : Option String
  rds_db : Option String
deriving DecidableEq

/-- `os.environ.get` restricted to the four names the code reads. -/
def envGet (env : Env) (v : String) : Option String :=
  if v = "RDS_HOST" then env.rds_host
  else if v = "RDS_USER" then env.rds_user
  else if v = "RDS_PASSWORD" then env.rds_password
  else if v = "RDS_DB" then env.rds_db
  else none

/-- Python truthiness test `not os.environ.get(var)`: unset or empty. -/
def blankVar (o : Option String) : Bool :=
  (o.getD "").isEmpty

/-- The `required_vars` list of `validate_environment_variables`. -/
def required_vars : List String :=
  ["RDS_HOST", "RDS_USER", "RDS_PASSWORD", "RDS_DB"]

/-- The `missing_vars` comprehension of `validate_environment_variables`. -/
def missingVars (env : Env) : List String :=
  required_vars.filter (fun v => blankVar (envGet env v))

/-- Comma-separated quoted items of a Python list-of-strings repr. -/
def pyStrListReprAux : List String → String
  | [] => ""
  | [v] => "\x27" ++ v ++ "\x27"
  | v :: vs => "\x27" ++ v ++ "\x27" ++ ", " ++ pyStrListReprAux vs

/-- Python `repr` of a list of strings, as an f-string interpolates it. -/
def pyStrListRepr (l : List String) : String :=
  "[" ++ pyStrListReprAux l ++ "]"

/-- `validate_environment_variables` (lines 82-99 of `app.py`): returns the
`(is_valid, message)` pair. -/
def validate_environment_variables (env : Env) : Bool × String :=
  let missing := missingVars env
  if missing.isEmpty then (true, "OK")
  else (false, "Variables de entorno faltantes: " ++ pyStrListRepr missing)

/-- One record of the S3 arrival event, holding
`record['s3']['bucket']['name']` and `record['s3']['object']['key']`. -/
structure S3Record where
  bucket : String
  key : String
deriving DecidableEq

/-- The triggering event: `records = none` models an event without a
`Records` key, `some []` an empty record list. -/
structure S3Event where
  records : Option (List S3Record)

/-- Oracles for the external collaborators of `process_file`: the S3
download, the JSON decode, the database connect and the table bootstrap.
Each may fail; a failure is the exception the corresponding Python call
raises. -/
structure Ops where
  s3Get : String → String → Except String String
  jsonParse : String → Except String Json
  connect : Except PyErr Unit
  createTable : Except PyErr Unit

/-- The dictionary both entry points return: `status` plus the optional
`message`, `action`, `file` and `error_type` keys. -/
structure PFResult where
  status : String
  message : String
  action : Option String
  file : Option String
  error_type : Option String
deriving DecidableEq

/-- Result of one `process_file` invocation together with the final table
state and flags recording whether the S3 download and the database
connection were ever attempted. -/
structure Outcome where
  result : PFResult
  db : List Row
  s3Called : Bool
  connectAttempted : Bool
deriving DecidableEq

/-- Error result assembled by the outer `except` block of `process_file`. -/
def mkCaught (msg etype : String) : PFResult :=
  ⟨"error", msg, none, none, some etype⟩

/-- `process_file` (lines 218-293 of `app.py`): env validation, event
validation, S3 download, JSON decode, extraction, connect, table bootstrap,
idempotent insert; every raised exception is converted into an error result
by the outer handler.  The table state is threaded explicitly and the
`finally` block (connection close) has no observable effect here. -/
def process_file (tz : Int) (env : Env) (ops : Ops) (event : S3Event)
    (db : List Row) : Outcome :=
  let v := validate_environment_variables env
  if !v.1 then
    ⟨⟨"error", v.2, none, none, none⟩, db, false, false⟩
  else
    match event.records with
    | none =>
      ⟨mkCaught "Evento S3 inválido: no se encontraron Records" "ValueError", db, false, false⟩
    | some [] =>
      ⟨mkCaught "Evento S3 inválido: no se encontraron Records" "ValueError", db, false, false⟩
    | some (r :: _) =>
      match ops.s3Get r.bucket r.key with
      | .error e =>
        ⟨mkCaught ("Error descargando archivo de S3: " ++ e) "Exception", db, true, false⟩
      | .ok content =>
        match ops.jsonParse content with
        | .error e =>
          ⟨mkCaught ("Error decodificando JSON: " ++ e) "Exception", db, true, false⟩
        | .ok data =>
          match process_dollar_data tz data with
          | .error pe => ⟨mkCaught pe.msg pe.etype, db, true, false⟩
          | .ok (fechahora, valor) =>
            match ops.connect with
            | .error pe => ⟨mkCaught pe.msg pe.etype, db, true, true⟩
            | .ok _ =>
              match ops.createTable with
              | .error pe => ⟨mkCaught pe.msg pe.etype, db, true, true⟩
              | .ok _ =>
                let ins := insert_dollar_data db fechahora valor
                ⟨⟨"success",
                  "Procesado: " ++ fechahora ++ " - $" ++ toString valor,
                  some ins.1, some r.key, none⟩, ins.2, true, true⟩

/-- Result dictionary of the fetch entry point `f`. -/
structure FResult where
  status : String
  message : Option String
  filename : Option String
  records : Option Nat
deriving DecidableEq

/-- `len(data) if isinstance(data, list) else None`. -/
def jsonLen : Json → Option Nat
  | .jarr xs => some xs.length
  | _ => none

/-- The fetch entry point `f` (lines 57-78 of `app.py`): the upstream fetch
and the S3 put are oracles (either may raise), the timestamp-derived
filename is an input; every exception becomes an error result. -/
def f (fetch : Except String Json) (save : Except String Unit)
    (filename : String) : FResult :=
  match fetch with
  | .error e => ⟨"error", some e, none, none⟩
  | .ok data =>
    match save with
    | .error e => ⟨"error", some e, none, none⟩
    | .ok _ => ⟨"success", none, some filename, jsonLen data⟩

/-- Substring test on character lists: some tail of the haystack starts
with the needle. -/
def containsSub (hay needle : List Char) : Bool :=
  hay.tails.any (fun t => needle.isPrefixOf t)

/-- Substring test on strings. -/
def strContainsB (hay needle : String) : Bool :=
  containsSub hay.data needle.data

/-- The payload shapes the claim set singles out: an empty container, a
non-array value, an array whose first element is not an array, or an array
of arrays whose selected (last) record has fewer than 2 fields. -/
def badShape : Json → Bool
  | .jarr [] => true
  | .jarr (first :: rest) =>
    (!firstIsList first) ||
      (match (first :: rest).getLast (List.cons_ne_nil first rest) with
       | .jarr fields => decide (fields.length < 2)
       | _ => false)
  | _ => true

/-- The two-pair payload of Scenario A of the specification. -/
def scenarioA : List (List Json) :=
  [[Json.jnum 1672531200000, Json.jstr "4800.50"],
   [Json.jnum 1672617600000, Json.jstr "4820.75"]]

/-- The series-variant payload the specification describes: an object whose
"series" key holds a non-empty array of objects exposing "valor". -/
def seriesPayload : Json :=
  Json.jobj [("series", Json.jarr [Json.jobj [("valor", Json.jnum 4000)]])]

/-- A fully populated environment. -/
def envFull : Env :=
  ⟨some "db-host", some "admin", some "hunter2", some "dolar"⟩

/-- An arrival event referencing one stored artifact. -/
def eventA : S3Event :=
  ⟨some [⟨"dolar-raw-cmjm", "dolar-1725753600.json"⟩]⟩

/-- Oracles for a fully successful run delivering the Scenario A payload. -/
def opsA : Ops :=
  ⟨fun _ _ => .ok "raw", fun _ => .ok (Json.jarr (scenarioA.map Json.jarr)),
    .ok (), .ok ()⟩

/-- Oracles that fail if ever consulted, for runs that must stop before
any network or storage call. -/
def opsNone : Ops :=
  ⟨fun _ _ => .error "unreachable", fun _ => .error "unreachable",
    .error ⟨"Exception", "unreachable"⟩, .error ⟨"Exception", "unreachable"⟩⟩

/-- The extractor's timestamp conversion — exact division by 1000 in ℚ
followed by the floor taken at whole-second rendering — equals integer
floor division by 1000.  (For the positive divisor 1000, Lean's `Int`
division `/` is floor division, matching Python `//`.) -/
theorem toEpochSec_eq (ms : Int) : toEpochSec ms = ms / 1000 := by
  unfold toEpochSec
  have h : Rat.floor ((ms : ℚ) / 1000) = ⌊((ms : ℚ) / 1000)⌋ :=
    (Rat.floor_def' _).trans Rat.floor_def.symm
  rw [h, show ((1000 : ℚ)) = ((1000 : ℕ) : ℚ) by norm_num,
    Rat.floor_intCast_div_natCast]
  norm_num

/-- Appending a row changes the key count by one exactly when the new row
carries that key. -/
theorem countKey_append (db : List Row) (r : Row) (k : String) :
    countKey (db ++ [r]) k
      = countKey db k + (if r.fechahora == k then 1 else 0) := by
  simp only [countKey, List.filter_append]
  split <;> simp_all

/-- Core behaviour of the check-then-insert sequence on a key that is not
yet stored: the first call inserts, the second call skips, the state is
unchanged by the second call, and exactly one row with the key remains. -/
theorem insert_twice_spec (db : List Row) (k : String) (v1 v2 : ℚ)
    (h : countKey db k = 0) :
    (insert_dollar_data db k v1).1 = "inserted" ∧
    (insert_dollar_data db k v1).2 = db ++ [⟨k, v1⟩] ∧
    (insert_dollar_data (insert_dollar_data db k v1).2 k v2).1 = "skipped" ∧
    (insert_dollar_data (insert_dollar_data db k v1).2 k v2).2
      = (insert_dollar_data db k v1).2 ∧
    countKey (insert_dollar_data (insert_dollar_data db k v1).2 k v2).2 k = 1 := by
  have h1 : insert_dollar_data db k v1 = ("inserted", db ++ [⟨k, v1⟩]) := by
    unfold insert_dollar_data
    simp [h]
  have hc : countKey (db ++ [⟨k, v1⟩]) k = 1 := by
    rw [countKey_append, h]
    simp
  have h2 : insert_dollar_data (db ++ [⟨k, v1⟩]) k v2
      = ("skipped", db ++ [⟨k, v1⟩]) := by
    unfold insert_dollar_data
    simp [hc]
  rw [h1]
  simp only [h2, hc]
  simp

/-- C1: invoking the Ingestor twice with the same `occurred_at` (on a table
not yet holding that timestamp) stores exactly one row: the first call
returns "inserted", the second performs no insert and returns "skipped",
and at most one record per distinct `occurred_at` is kept. -/
theorem ingest_idempotent (db : List Row) (k : String) (v1 v2 : ℚ)
    (h : countKey db k = 0) :
    (insert_dollar_data db k v1).1 = "inserted" ∧
    (insert_dollar_data (insert_dollar_data db k v1).2 k v2).1 = "skipped" ∧
    (insert_dollar_data (insert_dollar_data db k v1).2 k v2).2
      = (insert_dollar_data db k v1).2 ∧
    countKey (insert_dollar_data (insert_dollar_data db k v1).2 k v2).2 k = 1 := by
  obtain ⟨a, _, c, d, e⟩ := insert_twice_spec db k v1 v2 h
  exact ⟨a, c, d, e⟩

/-- Witness for C1 at a concrete key and empty table. -/
theorem ingest_idempotent_witness :
    (insert_dollar_data [] "2023-01-02 00:00:00" 4820.75).1 = "inserted" ∧
    (insert_dollar_data
      (insert_dollar_data [] "2023-01-02 00:00:00" 4820.75).2
      "2023-01-02 00:00:00" 4900).1 = "skipped" ∧
    (insert_dollar_data
      (insert_dollar_data [] "2023-01-02 00:00:00" 4820.75).2
      "2023-01-02 00:00:00" 4900).2
      = (insert_dollar_data [] "2023-01-02 00:00:00" 4820.75).2 ∧
    countKey (insert_dollar_data
      (insert_dollar_data [] "2023-01-02 00:00:00" 4820.75).2
      "2023-01-02 00:00:00" 4900).2 "2023-01-02 00:00:00" = 1 :=
  ingest_idempotent [] "2023-01-02 00:00:00" 4820.75 4900 rfl

/-- C5: a millisecond epoch integer `E` converts to an instant whose
re-serialization to epoch milliseconds, truncated to the second, is
`(E // 1000) * 1000`: the conversion is second-precision floor division
by 1000. -/
theorem timestamp_roundtrip_second_precision (E : Int) :
    toEpochSec E * 1000 = (E / 1000) * 1000 := by
  rw [toEpochSec_eq]

/-- C10: two distinct millisecond timestamps within the same second format
to identical `occurred_at` keys, so ingesting both stores exactly one row
and the second ingest returns "skipped". -/
theorem same_second_dedup (tz : Int) (E1 E2 : Int) (v1 v2 : ℚ) (db : List Row)
    (hne : E1 ≠ E2) (hsec : E1 / 1000 = E2 / 1000)
    (h : countKey db (fmtTimestamp tz (toEpochSec E1)) = 0) :
    fmtTimestamp tz (toEpochSec E1) = fmtTimestamp tz (toEpochSec E2) ∧
    (insert_dollar_data db (fmtTimestamp tz (toEpochSec E1)) v1).1 = "inserted" ∧
    (insert_dollar_data
      (insert_dollar_data db (fmtTimestamp tz (toEpochSec E1)) v1).2
      (fmtTimestamp tz (toEpochSec E2)) v2).1 = "skipped" ∧
    countKey (insert_dollar_data
      (insert_dollar_data db (fmtTimestamp tz (toEpochSec E1)) v1).2
      (fmtTimestamp tz (toEpochSec E2)) v2).2
      (fmtTimestamp tz (toEpochSec E1)) = 1 := by
  have hkey : fmtTimestamp tz (toEpochSec E1) = fmtTimestamp tz (toEpochSec E2) := by
    rw [toEpochSec_eq, toEpochSec_eq, hsec]
  obtain ⟨a, _, c, _, e⟩ :=
    insert_twice_spec db (fmtTimestamp tz (toEpochSec E1)) v1 v2 h
  refine ⟨hkey, a, ?_, ?_⟩
  · rw [← hkey]
    exact c
  · rw [← hkey]
    exact e

/-- Witness for C10: 1672617600123 and 1672617600999 share the second. -/
theorem same_second_dedup_witness :
    fmtTimestamp 0 (toEpochSec 1672617600123) = fmtTimestamp 0 (toEpochSec 1672617600999) ∧
    (insert_dollar_data [] (fmtTimestamp 0 (toEpochSec 1672617600123)) 4820.75).1 = "inserted" ∧
    (insert_dollar_data
      (insert_dollar_data [] (fmtTimestamp 0 (toEpochSec 1672617600123)) 4820.75).2
      (fmtTimestamp 0 (toEpochSec 1672617600999)) 4821).1 = "skipped" ∧
    countKey (insert_dollar_data
      (insert_dollar_data [] (fmtTimestamp 0 (toEpochSec 1672617600123)) 4820.75).2
      (fmtTimestamp 0 (toEpochSec 1672617600999)) 4821).2
      (fmtTimestamp 0 (toEpochSec 1672617600123)) = 1 :=
  same_second_dedup 0 1672617600123 1672617600999 4820.75 4821 []
    (by decide) (by decide) rfl

/-- Mapping `Json.jarr` over a list of records commutes with taking the
last record. -/
theorem getLast_map_jarr (x : List Json) (xs : List (List Json))
    (hne : (x :: xs) ≠ []) :
    (Json.jarr x :: List.map Json.jarr xs).getLast (List.cons_ne_nil _ _)
      = Json.jarr ((x :: xs).getLast hne) := by
  have h := List.getLast_map Json.jarr (x :: xs) (by simp)
  simpa using h

/-- C2: on a non-empty array of records that are arrays of length ≥ 2, the
Extractor reads exactly the last record — never an earlier one — deriving
`occurred_at` from its first field (epoch milliseconds) and the value from
its second field. -/
theorem extractor_selects_last (tz : Int) (xs : List (List Json))
    (hne : xs ≠ []) (hlen : ∀ l ∈ xs, 2 ≤ l.length)
    (ts v : Json) (restF : List Json) (ms : Int) (q : ℚ)
    (hlast : xs.getLast hne = ts :: v :: restF)
    (hts : pyInt ts = some ms) (hv : pyFloat v = some q) :
    process_dollar_data tz (Json.jarr (xs.map Json.jarr))
      = Except.ok (fmtTimestamp tz (toEpochSec ms), q) := by
  obtain ⟨x, xs', rfl⟩ : ∃ x xs', xs = x :: xs' := by
    cases xs with
    | nil => exact absurd rfl hne
    | cons a b => exact ⟨a, b, rfl⟩
  simp only [List.map_cons]
  unfold process_dollar_data
  simp only [firstIsList, if_true]
  rw [getLast_map_jarr x xs' hne, hlast]
  unfold extractLatest
  simp [pyLen, pyIdx, hts, hv]

/-- Witness for C2 on the Scenario A payload. -/
theorem extractor_selects_last_witness :
    process_dollar_data 0 (Json.jarr (scenarioA.map Json.jarr))
      = Except.ok (fmtTimestamp 0 (toEpochSec 1672617600000), (4820.75 : ℚ)) :=
  extractor_selects_last 0 scenarioA (by simp [scenarioA]) (by decide)
    (Json.jnum 1672617600000) (Json.jstr "4820.75") [] 1672617600000 4820.75
    (by rfl) (by rfl)
    (by
      have h : pyFloat (Json.jstr "4820.75")
          = some (((4820 : ℕ) : ℚ) + ((75 : ℕ) : ℚ) / (10 : ℚ) ^ (2 : ℕ)) := rfl
      rw [h]
      norm_num)

/-- Counterexample to C3: on the well-formed series-variant object the
Extractor does not succeed with the first series element; it rejects the
payload with the not-a-list `ValueError`. -/
theorem series_input_rejected_cex :
    process_dollar_data 0 seriesPayload
      = Except.error
          ⟨"ValueError", "El archivo JSON no contiene una lista de datos"⟩ :=
  rfl

/-- C3 amended: every object input — a series-variant object included — is
rejected by the Extractor with the not-a-list `ValueError`; no
object-with-series branch exists in the code. -/
theorem series_input_rejected (tz : Int) (kvs : List (String × Json)) :
    process_dollar_data tz (Json.jobj kvs)
      = Except.error
          ⟨"ValueError", "El archivo JSON no contiene una lista de datos"⟩ :=
  rfl

/-- A list-of-chars needle occurring as an infix is found by the substring
scan. -/
theorem containsSub_complete {needle hay : List Char}
    (h : needle <:+: hay) : containsSub hay needle = true := by
  obtain ⟨s, t, rfl⟩ := h
  rw [containsSub, List.any_eq_true]
  refine ⟨needle ++ t, ?_, ?_⟩
  · rw [List.mem_tails, List.append_assoc]
    exact List.suffix_append s (needle ++ t)
  · rw [ List.isPrefixOf_iff_prefix]
    exact List.prefix_append needle t

/-- Member strings occur inside the rendered Python list repr. -/
theorem mem_occurs_reprAux (v : String) :
    ∀ l : List String, v ∈ l → v.data <:+: (pyStrListReprAux l).data := by
  intro l
  induction l with
  | nil => intro h; cases h
  | cons x xs ih =>
    intro hm
    rcases List.mem_cons.mp hm with rfl | htail
    · cases xs with
      | nil =>
        refine ⟨"\x27".data, "\x27".data, ?_⟩
        simp [pyStrListReprAux, String.data_append]
      | cons y ys =>
        refine ⟨"\x27".data,
          ("\x27" ++ ", " ++ pyStrListReprAux (y :: ys)).data, ?_⟩
        simp [pyStrListReprAux, String.data_append]
    · cases xs with
      | nil => cases htail
      | cons y ys =>
        have h2 := ih htail
        refine h2.trans ?_
        refine ⟨("\x27" ++ x ++ "\x27" ++ ", ").data, [], ?_⟩
        simp [pyStrListReprAux, String.data_append]

/-- Member strings are substrings of any message ending in the rendered
Python list repr. -/
theorem strContains_pyStrListRepr (pre v : String) (l : List String)
    (hm : v ∈ l) : strContainsB (pre ++ pyStrListRepr l) v = true := by
  apply containsSub_complete
  have h1 : v.data <:+: (pyStrListReprAux l).data := mem_occurs_reprAux v l hm
  refine h1.trans ?_
  refine ⟨(pre ++ "[").data, "]".data, ?_⟩
  simp [pyStrListRepr, String.data_append]

/-- C7: when any required `RDS_*` configuration value is missing, the
ingest operation fails fast with an error result whose message names every
missing variable, before the S3 download or the database connection is
attempted and without touching the table. -/
theorem missing_env_fails_fast (tz : Int) (env : Env) (ops : Ops)
    (event : S3Event) (db : List Row) (h : missingVars env ≠ []) :
    (process_file tz env ops event db).result.status = "error" ∧
    (process_file tz env ops event db).result.message
      = "Variables de entorno faltantes: " ++ pyStrListRepr (missingVars env) ∧
    (∀ v ∈ missingVars env,
      strContainsB (process_file tz env ops event db).result.message v = true) ∧
    (process_file tz env ops event db).s3Called = false ∧
    (process_file tz env ops event db).connectAttempted = false ∧
    (process_file tz env ops event db).db = db := by
  have hv : validate_environment_variables env
      = (false, "Variables de entorno faltantes: " ++ pyStrListRepr (missingVars env)) := by
    unfold validate_environment_variables
    simp [List.isEmpty_iff, h]
  have hpf : process_file tz env ops event db
      = ⟨⟨"error",
          "Variables de entorno faltantes: " ++ pyStrListRepr (missingVars env),
          none, none, none⟩, db, false, false⟩ := by
    unfold process_file
    simp [hv]
  rw [hpf]
  refine ⟨rfl, rfl, ?_, rfl, rfl, rfl⟩
  intro v hm
  exact strContains_pyStrListRepr "Variables de entorno faltantes: " v (missingVars env) hm

/-- Witness for C7: only `RDS_PASSWORD` unset. -/
theorem missing_env_fails_fast_witness :
    (process_file 0 ⟨some "db-host", some "admin", none, some "dolar"⟩
        opsNone eventA []).result.status = "error" ∧
    (process_file 0 ⟨some "db-host", some "admin", none, some "dolar"⟩
        opsNone eventA []).result.message
      = "Variables de entorno faltantes: "
          ++ pyStrListRepr (missingVars ⟨some "db-host", some "admin", none, some "dolar"⟩) ∧
    (∀ v ∈ missingVars ⟨some "db-host", some "admin", none, some "dolar"⟩,
      strContainsB (process_file 0 ⟨some "db-host", some "admin", none, some "dolar"⟩
        opsNone eventA []).result.message v = true) ∧
    (process_file 0 ⟨some "db-host", some "admin", none, some "dolar"⟩
        opsNone eventA []).s3Called = false ∧
    (process_file 0 ⟨some "db-host", some "admin", none, some "dolar"⟩
        opsNone eventA []).connectAttempted = false ∧
    (process_file 0 ⟨some "db-host", some "admin", none, some "dolar"⟩
        opsNone eventA []).db = [] :=
  missing_env_fails_fast 0 ⟨some "db-host", some "admin", none, some "dolar"⟩
    opsNone eventA [] (by decide)

/-- Every bad-shape payload makes the Extractor raise a `ValueError`. -/
theorem badShape_extractor_error (tz : Int) (data : Json)
    (hbad : badShape data = true) :
    ∃ msg, process_dollar_data tz data = Except.error ⟨"ValueError", msg⟩ := by
  cases data with
  | jnull => exact ⟨_, rfl⟩
  | jbool b => exact ⟨_, rfl⟩
  | jnum q => exact ⟨_, rfl⟩
  | jstr s => exact ⟨_, rfl⟩
  | jobj kvs => exact ⟨_, rfl⟩
  | jarr xs =>
    cases xs with
    | nil => exact ⟨_, rfl⟩
    | cons first rest =>
      by_cases hf : firstIsList first = true
      · rw [badShape] at hbad
        rw [hf] at hbad
        simp only [Bool.not_true, Bool.false_or] at hbad
        unfold process_dollar_data
        dsimp only
        rw [hf, if_pos rfl]
        revert hbad
        cases hgl : (first :: rest).getLast (List.cons_ne_nil first rest) with
        | jarr fields =>
          intro hbad
          have hlt : fields.length < 2 := by simpa using hbad
          unfold extractLatest
          simp only [pyLen]
          rw [if_pos hlt]
          exact ⟨_, rfl⟩
        | jnull => intro hbad; cases hbad
        | jbool b => intro hbad; cases hbad
        | jnum q => intro hbad; cases hbad
        | jstr s => intro hbad; cases hbad
        | jobj kvs => intro hbad; cases hbad
      · unfold process_dollar_data
        dsimp only
        rw [Bool.not_eq_true] at hf
        rw [hf]
        exact ⟨_, rfl⟩

/-- C6: a payload that is empty, not an array of arrays, or whose selected
record has fewer than 2 fields makes the Extractor fail with a
`ValueError`, and the invocation performs no store write: the table is
unchanged and the result reports an error. -/
theorem bad_shape_validation_error (tz : Int) (data : Json)
    (hbad : badShape data = true) (env : Env) (ops : Ops) (event : S3Event)
    (db : List Row) (r : S3Record) (rs : List S3Record) (content : String)
    (hrec : event.records = some (r :: rs))
    (hget : ops.s3Get r.bucket r.key = Except.ok content)
    (hparse : ops.jsonParse content = Except.ok data) :
    (∃ msg, process_dollar_data tz data = Except.error ⟨"ValueError", msg⟩) ∧
    (process_file tz env ops event db).result.status = "error" ∧
    (process_file tz env ops event db).db = db := by
  obtain ⟨msg, hext⟩ := badShape_extractor_error tz data hbad
  refine ⟨⟨msg, hext⟩, ?_⟩
  unfold process_file
  cases hval : (validate_environment_variables env).1 with
  | false => simp [hval]
  | true =>
    simp only [hval, Bool.not_true, Bool.false_eq_true, if_false, hrec,
      hget, hparse, hext]
    simp [mkCaught]

/-- Witness for C6 on the empty-array payload. -/
theorem bad_shape_validation_error_witness :
    (∃ msg, process_dollar_data 0 (Json.jarr [])
        = Except.error ⟨"ValueError", msg⟩) ∧
    (process_file 0 envFull
        ⟨fun _ _ => Except.ok "raw", fun _ => Except.ok (Json.jarr []),
          Except.ok (), Except.ok ()⟩ eventA []).result.status = "error" ∧
    (process_file 0 envFull
        ⟨fun _ _ => Except.ok "raw", fun _ => Except.ok (Json.jarr []),
          Except.ok (), Except.ok ()⟩ eventA []).db = [] :=
  bad_shape_validation_error 0 (Json.jarr []) rfl envFull
    ⟨fun _ _ => Except.ok "raw", fun _ => Except.ok (Json.jarr []),
      Except.ok (), Except.ok ()⟩ eventA []
    ⟨"dolar-raw-cmjm", "dolar-1725753600.json"⟩ [] "raw" rfl rfl rfl

/-- Counterexample to C8: on an arrival event with an empty record list the
result message is the Spanish "Evento S3 inválido: no se encontraron
Records" — it does not contain the literal "invalid event". -/
theorem invalid_event_msg_cex :
    (process_file 0 envFull opsNone ⟨some []⟩ []).result.status = "error" ∧
    strContainsB (process_file 0 envFull opsNone ⟨some []⟩ []).result.message
      "invalid event" = false := by
  constructor
  · rfl
  · decide

/-- C8 amended: an arrival event lacking `Records`, or with an empty record
list, makes the ingest operation return an error result whose message is
"Evento S3 inválido: no se encontraron Records" (containing "Evento S3
inválido" rather than "invalid event"), before any network or storage call
is made. -/
theorem invalid_event_fails_fast (tz : Int) (env : Env) (ops : Ops)
    (event : S3Event) (db : List Row)
    (henv : missingVars env = [])
    (hrec : event.records = none ∨ event.records = some []) :
    (process_file tz env ops event db).result.status = "error" ∧
    (process_file tz env ops event db).result.message
      = "Evento S3 inválido: no se encontraron Records" ∧
    strContainsB (process_file tz env ops event db).result.message
      "Evento S3 inválido" = true ∧
    (process_file tz env ops event db).s3Called = false ∧
    (process_file tz env ops event db).connectAttempted = false ∧
    (process_file tz env ops event db).db = db := by
  have hv : validate_environment_variables env = (true, "OK") := by
    unfold validate_environment_variables
    rw [henv]
    rfl
  have hpf : process_file tz env ops event db
      = ⟨mkCaught "Evento S3 inválido: no se encontraron Records" "ValueError",
          db, false, false⟩ := by
    unfold process_file
    rw [hv]
    rcases hrec with h | h <;> rw [h] <;> rfl
  have hc : strContainsB "Evento S3 inválido: no se encontraron Records"
      "Evento S3 inválido" = true := by decide
  rw [hpf]
  exact ⟨rfl, rfl, hc, rfl, rfl, rfl⟩

/-- Witness for C8 (amended) at an empty record list. -/
theorem invalid_event_fails_fast_witness :
    (process_file 0 envFull opsNone ⟨some []⟩ [] ).result.status = "error" ∧
    (process_file 0 envFull opsNone ⟨some []⟩ [] ).result.message
      = "Evento S3 inválido: no se encontraron Records" ∧
    strContainsB (process_file 0 envFull opsNone ⟨some []⟩ [] ).result.message
      "Evento S3 inválido" = true ∧
    (process_file 0 envFull opsNone ⟨some []⟩ [] ).s3Called = false ∧
    (process_file 0 envFull opsNone ⟨some []⟩ [] ).connectAttempted = false ∧
    (process_file 0 envFull opsNone ⟨some []⟩ [] ).db = [] :=
  invalid_event_fails_fast 0 envFull opsNone ⟨some []⟩ [] rfl (Or.inr rfl)

/-- Counterexample to C4: a fully successful ingest run returns the status
string "success", not "ok"; the result status therefore does not conform
to the claimed "ok"/"error"/"skipped" status set. -/
theorem success_status_not_ok_cex :
    (process_file 0 envFull opsA eventA []).result.status = "success" ∧
    (process_file 0 envFull opsA eventA []).result.status ≠ "ok" ∧
    (process_file 0 envFull opsA eventA []).result.action = some "inserted" := by
  refine ⟨rfl, ?_, rfl⟩
  intro h
  exact absurd (rfl.trans h) (by decide)

/-- C4 amended: every successful ingest invocation (valid array-of-pairs
payload, no pre-existing row at that timestamp) returns a result whose
status field is "success" and whose action field is "inserted", and
appends exactly the extracted row. -/
theorem success_path_status_success (tz : Int) (env : Env) (ops : Ops)
    (event : S3Event) (db : List Row) (r : S3Record) (rs : List S3Record)
    (content : String) (data : Json) (fh : String) (valor : ℚ)
    (henv : missingVars env = [])
    (hrec : event.records = some (r :: rs))
    (hget : ops.s3Get r.bucket r.key = Except.ok content)
    (hparse : ops.jsonParse content = Except.ok data)
    (hext : process_dollar_data tz data = Except.ok (fh, valor))
    (hconn : ops.connect = Except.ok ())
    (htab : ops.createTable = Except.ok ())
    (hnew : countKey db fh = 0) :
    (process_file tz env ops event db).result.status = "success" ∧
    (process_file tz env ops event db).result.action = some "inserted" ∧
    (process_file tz env ops event db).result.file = some r.key ∧
    (process_file tz env ops event db).db = db ++ [⟨fh, valor⟩] := by
  have hv : validate_environment_variables env = (true, "OK") := by
    unfold validate_environment_variables
    rw [henv]
    rfl
  have hins : insert_dollar_data db fh valor = ("inserted", db ++ [⟨fh, valor⟩]) := by
    unfold insert_dollar_data
    simp [hnew]
  have hpf : process_file tz env ops event db
      = ⟨⟨"success", "Procesado: " ++ fh ++ " - $" ++ toString valor,
          some "inserted", some r.key, none⟩, db ++ [⟨fh, valor⟩], true, true⟩ := by
    unfold process_file
    rw [hv]
    dsimp only
    rw [hrec]
    dsimp only
    rw [hget]
    dsimp only
    rw [hparse]
    dsimp only
    rw [hext]
    dsimp only
    rw [hconn]
    dsimp only
    rw [htab]
    dsimp only
    rw [hins]
    rfl
  rw [hpf]
  exact ⟨rfl, rfl, rfl, rfl⟩

/-- Witness for C4 (amended) on the Scenario A run. -/
theorem success_path_status_success_witness :
    (process_file 0 envFull opsA eventA []).result.status = "success" ∧
    (process_file 0 envFull opsA eventA []).result.action = some "inserted" ∧
    (process_file 0 envFull opsA eventA []).result.file = some "dolar-1725753600.json" ∧
    (process_file 0 envFull opsA eventA []).db
      = [] ++ [⟨fmtTimestamp 0 (toEpochSec 1672617600000), (4820.75 : ℚ)⟩] :=
  success_path_status_success 0 envFull opsA eventA []
    ⟨"dolar-raw-cmjm", "dolar-1725753600.json"⟩ [] "raw"
    (Json.jarr (scenarioA.map Json.jarr))
    (fmtTimestamp 0 (toEpochSec 1672617600000)) (4820.75 : ℚ)
    rfl rfl rfl rfl
    (by
      have h : process_dollar_data 0 (Json.jarr (scenarioA.map Json.jarr))
          = Except.ok (fmtTimestamp 0 (toEpochSec 1672617600000),
              (((4820 : ℕ) : ℚ) + ((75 : ℕ) : ℚ) / (10 : ℚ) ^ (2 : ℕ))) := rfl
      rw [h]
      norm_num)
    rfl rfl rfl

/-- C9: both operation entry points are total: whatever the triggering
event, configuration and collaborator outcomes, each returns a structured
result whose status is "success" or "error" — no failure escapes as an
unhandled crash. -/
theorem entry_points_total_status (fetch : Except String Json)
    (save : Except String Unit) (filename : String) (tz : Int) (env : Env)
    (ops : Ops) (event : S3Event) (db : List Row) :
    ((f fetch save filename).status = "success" ∨
      (f fetch save filename).status = "error") ∧
    ((process_file tz env ops event db).result.status = "success" ∨
      (process_file tz env ops event db).result.status = "error") := by
  constructor
  · cases fetch <;> cases save <;> simp [f]
  · unfold process_file
    dsimp only
    repeat' split
    all_goals simp [mkCaught]
